import Mathlib

/-!
Verification of the `solana_tax_reward` Anchor program
(`programs/tax_reward/src/{lib,state,instructions,error,swap}.rs`).

Machine integers are embedded as `Nat` with explicit width bounds
(`U64_SIZE = 2^64`, `U128_SIZE = 2^128`); Rust's `checked_*` operations
become `Option`-valued functions; fallible handlers return `Except`.
-/

namespace SolanaTaxReward

/-- Scale factor for cumulative reward accounting (1e18), `SCALE` in lib.rs. -/
def SCALE : Nat := 1000000000000000000

/-- `u64::MAX + 1`: values of type `u64` are the naturals below this bound. -/
def U64_SIZE : Nat := 2 ^ 64

/-- `u128::MAX + 1`: values of type `u128` are the naturals below this bound. -/
def U128_SIZE : Nat := 2 ^ 128

/-- The program's custom error enum, from `error.rs`.
Note the enum has no `DivideByZero` variant. -/
inductive TaxRewardError where
  | InvalidInstruction
  | InsufficientFunds
  | Unauthorized
  | Overflow
  | SlippageExceeded
  | InvalidTaxRate
  | InvalidTokenAccount
  | InsufficientRewardVault
  | SwapFailed
  | ProgramPaused
  | InvalidMintSupply
  deriving DecidableEq, Repr

/-- Raw Solana `ProgramError` values that appear in `swap.rs`. -/
inductive ProgramError where
  | InvalidArgument
  | Custom (code : Nat)
  deriving DecidableEq, Repr

/-- The error type of a handler invocation: either one of the program's
custom errors, an error bubbled up from the system-program lamport
transfer, an error from the SPL token transfer CPI, or a raw
`ProgramError` propagated from `swap.rs`. -/
inductive Err where
  | custom (e : TaxRewardError)
  | systemTransfer
  | tokenTransfer
  | program (e : ProgramError)
  deriving DecidableEq, Repr

/-- Rust `Option::ok_or` followed by `?`: turn an `Option` into an `Except`. -/
def okOr (o : Option α) (e : TaxRewardError) : Except TaxRewardError α :=
  match o with
  | some a => Except.ok a
  | none => Except.error e

/-- `u64::checked_mul`. -/
def checked_mul_u64 (a b : Nat) : Option Nat :=
  if a * b < U64_SIZE then some (a * b) else none

/-- `u64::checked_div`. -/
def checked_div_u64 (a b : Nat) : Option Nat :=
  if b = 0 then none else some (a / b)

/-- `u64::checked_sub`. -/
def checked_sub_u64 (a b : Nat) : Option Nat :=
  if b ≤ a then some (a - b) else none

/-- `u128::checked_mul`. -/
def checked_mul_u128 (a b : Nat) : Option Nat :=
  if a * b < U128_SIZE then some (a * b) else none

/-- `u128::checked_div`. -/
def checked_div_u128 (a b : Nat) : Option Nat :=
  if b = 0 then none else some (a / b)

/-- `u128::checked_sub`. -/
def checked_sub_u128 (a b : Nat) : Option Nat :=
  if b ≤ a then some (a - b) else none

/-- `u128::checked_add`. -/
def checked_add_u128 (a b : Nat) : Option Nat :=
  if a + b < U128_SIZE then some (a + b) else none

/-- `calculate_owed_rewards` (lib.rs:330-346):
`(balance as u128).checked_mul(cum_now.checked_sub(last_cum)?)?
   .checked_div(SCALE)?` followed by the cast `owed_u128 as u64`,
which truncates modulo `2^64`. Every `ok_or` maps to `Overflow`. -/
def calculate_owed_rewards (user_balance_snapshot global_cum_reward_per_token user_last_cum : Nat) :
    Except TaxRewardError Nat :=
  match okOr (checked_sub_u128 global_cum_reward_per_token user_last_cum) TaxRewardError.Overflow with
  | Except.error e => Except.error e
  | Except.ok diff =>
    match okOr (checked_mul_u128 user_balance_snapshot diff) TaxRewardError.Overflow with
    | Except.error e => Except.error e
    | Except.ok prod =>
      match okOr (checked_div_u128 prod SCALE) TaxRewardError.Overflow with
      | Except.error e => Except.error e
      | Except.ok q => Except.ok (q % U64_SIZE)

/-- The tax computation inlined in `taxed_swap_and_distribute` (lib.rs:198-202):
`amount_in.checked_mul(tax_rate_bps as u64)?.checked_div(10_000)?` — the
intermediate product is a `u64`, not a widened integer. -/
def calculate_tax (amount_in tax_rate_bps : Nat) : Except TaxRewardError Nat :=
  match okOr (checked_mul_u64 amount_in tax_rate_bps) TaxRewardError.Overflow with
  | Except.error e => Except.error e
  | Except.ok p =>
    match okOr (checked_div_u64 p 10000) TaxRewardError.Overflow with
    | Except.error e => Except.error e
    | Except.ok q => Except.ok q

/-- The per-token accrual inlined in `taxed_swap_and_distribute`
(lib.rs:187-191): `delta_sol.checked_mul(SCALE)?.checked_div(total_supply as u128)?`,
with both `ok_or` calls mapping to `Overflow` (including the division-by-zero
case of `checked_div`). -/
def deltaCum (delta_sol total_supply : Nat) : Except TaxRewardError Nat :=
  match okOr (checked_mul_u128 delta_sol SCALE) TaxRewardError.Overflow with
  | Except.error e => Except.error e
  | Except.ok p =>
    match okOr (checked_div_u128 p total_supply) TaxRewardError.Overflow with
    | Except.error e => Except.error e
    | Except.ok q => Except.ok q

/-- Modelled from the spec: the error taxonomy of spec §7, which (unlike
the program's `error.rs`) includes a `DivideByZero` kind. Used only to
compare the code's failure kind against the spec's claimed failure kind. -/
inductive SpecError where
  | InvalidInstruction
  | InsufficientFunds
  | Unauthorized
  | Overflow
  | SlippageExceeded
  | InvalidTaxRate
  | InvalidTokenAccount
  | InsufficientRewardVault
  | SwapFailed
  | ProgramPaused
  | InvalidMintSupply
  | DivideByZero
  deriving DecidableEq, Repr

/-- The evident same-name embedding of the code's errors into the spec taxonomy. -/
def errOfCode : TaxRewardError → SpecError
  | TaxRewardError.InvalidInstruction => SpecError.InvalidInstruction
  | TaxRewardError.InsufficientFunds => SpecError.InsufficientFunds
  | TaxRewardError.Unauthorized => SpecError.Unauthorized
  | TaxRewardError.Overflow => SpecError.Overflow
  | TaxRewardError.SlippageExceeded => SpecError.SlippageExceeded
  | TaxRewardError.InvalidTaxRate => SpecError.InvalidTaxRate
  | TaxRewardError.InvalidTokenAccount => SpecError.InvalidTokenAccount
  | TaxRewardError.InsufficientRewardVault => SpecError.InsufficientRewardVault
  | TaxRewardError.SwapFailed => SpecError.SwapFailed
  | TaxRewardError.ProgramPaused => SpecError.ProgramPaused
  | TaxRewardError.InvalidMintSupply => SpecError.InvalidMintSupply

/-- Map a result of the code into the spec's error taxonomy. -/
def mapCodeErr (r : Except TaxRewardError Nat) : Except SpecError Nat :=
  match r with
  | Except.ok a => Except.ok a
  | Except.error e => Except.error (errOfCode e)

/-- `Config` account (state.rs). Pubkeys are opaque identities, embedded as `Nat`. -/
structure Config where
  tax_rate_bps : Nat
  owner : Nat
  dex_program : Nat
  paused : Bool
  deriving DecidableEq, Repr

/-- `GlobalState` account (state.rs). -/
structure GlobalState where
  total_supply : Nat
  cum_reward_per_token : Nat
  deriving DecidableEq, Repr

/-- `UserInfo` account (state.rs). -/
structure UserInfo where
  last_cum : Nat
  balance_snapshot : Nat
  deriving DecidableEq, Repr

/-- `update_config` (lib.rs:271-290): requires the signing owner to equal
`config.owner` (else `Unauthorized`), then stores `new_tax_rate_bps` and
`paused` with no further validation. -/
def update_config (cfg : Config) (owner_signer : Nat) (new_tax_rate_bps : Nat) (paused : Bool) :
    Except TaxRewardError Config :=
  if owner_signer = cfg.owner then
    Except.ok { cfg with tax_rate_bps := new_tax_rate_bps, paused := paused }
  else
    Except.error TaxRewardError.Unauthorized

/-- Result of a `claim_rewards` invocation: the amount paid out, the new
`UserInfo` account contents and the new reward-vault lamport balance. -/
structure ClaimOutcome where
  owed : Nat
  user_info : UserInfo
  reward_vault_lamports : Nat
  deriving DecidableEq, Repr

/-- `claim_rewards` (lib.rs:223-268): computes the owed rewards, pays them
from the reward vault via a system-program transfer when positive (the
transfer fails when the vault holds fewer lamports than `owed`), then
unconditionally sets `last_cum := global.cum_reward_per_token` and
`balance_snapshot :=` the user token account's amount. -/
def claim_rewards (global : GlobalState) (user_info : UserInfo)
    (reward_vault_lamports user_token_amount : Nat) : Except Err ClaimOutcome :=
  match calculate_owed_rewards user_info.balance_snapshot global.cum_reward_per_token user_info.last_cum with
  | Except.error e => Except.error (Err.custom e)
  | Except.ok owed =>
    if 0 < owed ∧ reward_vault_lamports < owed then
      Except.error Err.systemTransfer
    else
      Except.ok
        { owed := owed
          user_info :=
            { last_cum := global.cum_reward_per_token
              balance_snapshot := user_token_amount }
          reward_vault_lamports := reward_vault_lamports - owed }

/-- `close_user_info` (lib.rs:293-302, instructions.rs:143-156): closes the
`UserInfo` account, moving its rent lamports to `authority`. No settlement
runs and no owed amount is computed or checked; the handler always succeeds.
Returns the (absent) ledger entry and the authority's new lamports. -/
def close_user_info (user_info : UserInfo) (authority_lamports user_info_lamports : Nat) :
    Except Err (Option UserInfo × Nat) :=
  Except.ok (none, authority_lamports + user_info_lamports)

/-- `mock_swap_for_development` (swap.rs:67-85): performs no transfer and
always succeeds. -/
def mock_swap_for_development (token_amount min_amount_out : Nat) : Except ProgramError Unit :=
  Except.ok ()

/-- Jupiter template (swap.rs:90-153): dead code, never called; returns
`ProgramError::Custom(404)` ("not implemented"). -/
def jupiter_swap_with_vault_authority (token_amount min_amount_out : Nat) :
    Except ProgramError Unit :=
  Except.error (ProgramError.Custom 404)

/-- Serum template (swap.rs:157-173): dead code, never called; returns
`ProgramError::Custom(0)` (placeholder). -/
def serum_swap_with_vault_authority (token_amount min_amount_out : Nat) :
    Except ProgramError Unit :=
  Except.error (ProgramError.Custom 0)

/-- `swap_tokens_for_sol` (swap.rs:37-63): rejects a zero token amount with
`ProgramError::InvalidArgument`, then calls only `mock_swap_for_development`
and propagates its result unchanged. Neither the Jupiter template nor the
Serum template is invoked. -/
def swap_tokens_for_sol (token_amount min_amount_out : Nat) : Except ProgramError Unit :=
  if token_amount = 0 then
    Except.error ProgramError.InvalidArgument
  else
    match mock_swap_for_development token_amount min_amount_out with
    | Except.ok _ => Except.ok ()
    | Except.error e => Except.error e

/-- The accounts touched by `taxed_swap_and_distribute` (instructions.rs
`TaxedSwap`). `user_token_amount` is the amount deserialized at instruction
entry; since the mock swap moves no tokens, it is also the on-chain amount
when the tax transfer executes. -/
structure ProgState where
  config : Config
  global_state : GlobalState
  user_info : UserInfo
  reward_vault_lamports : Nat
  token_vault_amount : Nat
  user_token_amount : Nat
  user_token_mint : Nat
  mint_key : Nat
  deriving DecidableEq, Repr

/-- The environment of the single external call: the reward-vault lamport
balance observed when the handler re-reads it after `swap_tokens_for_sol`
returns. The handler trusts only this before/after diff. -/
structure SwapEnv where
  post_swap_vault_lamports : Nat
  deriving DecidableEq, Repr

/-- The tail of `taxed_swap_and_distribute` after the slippage and
vault-sufficiency checks pass (lib.rs:186-219): accrue
`delta_cum = delta_sol * SCALE / total_supply` onto `cum_reward_per_token`
with checked arithmetic, collect the tax via the SPL token transfer, and
snapshot the user's balance. `st` is the pre-invocation state; the final
record also carries the `last_cum := cum_reward_per_token` write made at
lib.rs:134 and the reward-vault balance observed after the swap. -/
def accrue_collect_snapshot (st : ProgState) (env : SwapEnv)
    (amount_in delta_sol : Nat) : Except Err ProgState :=
  match deltaCum delta_sol st.global_state.total_supply with
  | Except.error e => Except.error (Err.custom e)
  | Except.ok delta_cum =>
    match checked_add_u128 st.global_state.cum_reward_per_token delta_cum with
    | none => Except.error (Err.custom TaxRewardError.Overflow)
    | some new_cum =>
      match calculate_tax amount_in st.config.tax_rate_bps with
      | Except.error e => Except.error (Err.custom e)
      | Except.ok tax_amount =>
        -- SPL token transfer of `tax_amount` from the user to the token vault
        if st.user_token_amount < tax_amount then Except.error Err.tokenTransfer
        else if U64_SIZE ≤ st.token_vault_amount + tax_amount then Except.error Err.tokenTransfer
        else
          Except.ok
            { st with
              user_info :=
                { last_cum := st.global_state.cum_reward_per_token
                  balance_snapshot := st.user_token_amount }
              global_state :=
                { st.global_state with cum_reward_per_token := new_cum }
              reward_vault_lamports := env.post_swap_vault_lamports
              user_token_amount := st.user_token_amount - tax_amount
              token_vault_amount := st.token_vault_amount + tax_amount }

/-- `taxed_swap_and_distribute` (lib.rs:61-220), as the function from the
pre-invocation account state (plus the external-call observation) to the
committed post state; the Solana runtime discards all account writes when a
handler errors, so an `Except.error` result leaves every account at its
pre-invocation value. Steps in source order: the six `require!` validations,
the lazy settlement payout, `user_info.last_cum` update, the external swap
with before/after vault diffing, the slippage check, the vault-sufficiency
check, then the accrual/tax/snapshot tail `accrue_collect_snapshot`. -/
def taxed_swap_and_distribute (st : ProgState) (env : SwapEnv)
    (amount_in min_amount_out : Nat) : Except Err ProgState :=
  if st.config.paused then Except.error (Err.custom TaxRewardError.ProgramPaused)
  else if amount_in = 0 then Except.error (Err.custom TaxRewardError.InvalidInstruction)
  else if 10000 < st.config.tax_rate_bps then Except.error (Err.custom TaxRewardError.InvalidTaxRate)
  else if st.user_token_mint ≠ st.mint_key then Except.error (Err.custom TaxRewardError.InvalidTokenAccount)
  else if st.user_token_amount < amount_in then Except.error (Err.custom TaxRewardError.InsufficientFunds)
  else if st.global_state.total_supply = 0 then Except.error (Err.custom TaxRewardError.InvalidMintSupply)
  else
    match calculate_owed_rewards st.user_info.balance_snapshot
        st.global_state.cum_reward_per_token st.user_info.last_cum with
    | Except.error e => Except.error (Err.custom e)
    | Except.ok owed =>
      -- lamport payout of `owed` from the reward vault, when positive
      if 0 < owed ∧ st.reward_vault_lamports < owed then Except.error Err.systemTransfer
      else
        -- `pre_balance` is read after the payout (lib.rs:139)
        let pre_balance := st.reward_vault_lamports - owed
        match swap_tokens_for_sol amount_in min_amount_out with
        | Except.error e => Except.error (Err.program e)
        | Except.ok _ =>
          let post_balance := env.post_swap_vault_lamports
          -- `post_balance.checked_sub(pre_balance).ok_or(Overflow)?`
          if post_balance < pre_balance then Except.error (Err.custom TaxRewardError.Overflow)
          else
            let delta_sol := post_balance - pre_balance
            let swapped_amount := delta_sol
            if swapped_amount < min_amount_out then
              Except.error (Err.custom TaxRewardError.SlippageExceeded)
            else if 0 < owed ∧ post_balance < owed then
              Except.error (Err.custom TaxRewardError.InsufficientRewardVault)
            else
              accrue_collect_snapshot st env amount_in delta_sol

/-- The runtime's commit rule: a successful handler commits its writes, a
failing handler leaves every account unchanged. -/
def commit (st : ProgState) (r : Except Err ProgState) : ProgState :=
  match r with
  | Except.ok s => s
  | Except.error _ => st

/-- One invocation of `taxed_swap_and_distribute` as submitted by a caller. -/
structure Invocation where
  env : SwapEnv
  amount_in : Nat
  min_amount_out : Nat

/-- The committed state after one (possibly failing) invocation. -/
def commitStep (st : ProgState) (i : Invocation) : ProgState :=
  commit st (taxed_swap_and_distribute st i.env i.amount_in i.min_amount_out)

/-- The committed state after a sequence of invocations. -/
def runAll (st : ProgState) (is : List Invocation) : ProgState :=
  is.foldl commitStep st

/-! ## Evaluation lemmas for the arithmetic helpers -/

/-- Closed-form evaluation of `calculate_owed_rewards`. -/
theorem calculate_owed_rewards_eq (b cn cl : Nat) :
    calculate_owed_rewards b cn cl =
      if cl ≤ cn then
        if b * (cn - cl) < U128_SIZE then
          Except.ok (b * (cn - cl) / SCALE % U64_SIZE)
        else Except.error TaxRewardError.Overflow
      else Except.error TaxRewardError.Overflow := by
  unfold calculate_owed_rewards okOr checked_sub_u128 checked_mul_u128 checked_div_u128
  by_cases h1 : cl ≤ cn <;> by_cases h2 : b * (cn - cl) < U128_SIZE <;>
    simp [h1, h2, SCALE]

/-- Closed-form evaluation of `calculate_tax`. -/
theorem calculate_tax_eq (a r : Nat) :
    calculate_tax a r =
      if a * r < U64_SIZE then Except.ok (a * r / 10000)
      else Except.error TaxRewardError.Overflow := by
  unfold calculate_tax okOr checked_mul_u64 checked_div_u64
  by_cases h : a * r < U64_SIZE <;> simp [h]

/-- Closed-form evaluation of `deltaCum`. -/
theorem deltaCum_eq (d ts : Nat) :
    deltaCum d ts =
      if d * SCALE < U128_SIZE then
        if ts = 0 then Except.error TaxRewardError.Overflow
        else Except.ok (d * SCALE / ts)
      else Except.error TaxRewardError.Overflow := by
  unfold deltaCum okOr checked_mul_u128 checked_div_u128
  by_cases h1 : d * SCALE < U128_SIZE <;> by_cases h2 : ts = 0 <;> simp [h1, h2]

/-! ## Claim theorems -/

/-- Claim C1 (amended): for `cum_now ≥ last_cum`, `calculate_owed_rewards`
fails with `Overflow` exactly when the u128 product
`balance_snapshot * (cum_now - last_cum)` overflows u128; otherwise it
returns the u128 quotient truncated modulo `2^64` — the cast `as u64`
truncates silently, it does not fail when the quotient has non-zero high
bits. -/
theorem owed_rewards_truncates (b cn cl : Nat) (hcl : cl ≤ cn) :
    (b * (cn - cl) < U128_SIZE →
      calculate_owed_rewards b cn cl = Except.ok (b * (cn - cl) / SCALE % U64_SIZE)) ∧
    (U128_SIZE ≤ b * (cn - cl) →
      calculate_owed_rewards b cn cl = Except.error TaxRewardError.Overflow) := by
  rw [calculate_owed_rewards_eq]
  constructor
  · intro h
    simp [hcl, h]
  · intro h
    simp [hcl, Nat.not_lt.mpr h]

/-- Instantiation of `owed_rewards_truncates`: a balance of 5 over a full
`SCALE` of accrual is owed exactly 5. -/
theorem owed_rewards_truncates_witness :
    calculate_owed_rewards 5 SCALE 0 = Except.ok 5 := by
  have h := (owed_rewards_truncates 5 SCALE 0 (Nat.zero_le _)).1 (by decide)
  rw [h]
  rfl

/-- Counterexample to claim C1 as stated: at
`balance = 2^63`, `cum_now - last_cum = 4·10^18` the exact quotient is
`2^65`, which does not fit in u64, yet the function returns `ok 0`
(the truncation) instead of failing with `Overflow`. -/
theorem owed_rewards_truncates_cex :
    calculate_owed_rewards 9223372036854775808 4000000000000000000 0 = Except.ok 0 ∧
    U64_SIZE ≤ 9223372036854775808 * (4000000000000000000 - 0) / SCALE := by
  constructor
  · rfl
  · decide

/-- Claim C2 (code bug): `update_config` enforces the `Unauthorized` check
but performs no `InvalidTaxRate` validation — an owner-signed call with
`new_tax_rate_bps = 10001` succeeds and stores a rate above 10000,
breaking the `tax_rate_bps ≤ 10000` invariant. -/
theorem update_config_accepts_invalid_rate :
    update_config ⟨500, 7, 9, false⟩ 7 10001 true = Except.ok ⟨10001, 7, 9, true⟩ ∧
    update_config ⟨500, 7, 9, false⟩ 8 10001 true =
      Except.error TaxRewardError.Unauthorized ∧
    10000 < 10001 := by
  refine ⟨rfl, rfl, by decide⟩

/-- Claim C3 (amended): for `rate_bps ≤ 10000` the tax computation returns
`floor(amount * rate_bps / 10000)` and this is at most `amount` — but only
when the product `amount * rate_bps` fits in the u64 intermediate; the
intermediate is not widened, so the computation fails with `Overflow` when
`amount * rate_bps ≥ 2^64`. Rate 0 gives 0; rate 10000 gives `amount`
exactly whenever the product fits. -/
theorem calculate_tax_spec (amount rate : Nat) (hr : rate ≤ 10000) :
    (amount * rate < U64_SIZE →
      calculate_tax amount rate = Except.ok (amount * rate / 10000) ∧
        amount * rate / 10000 ≤ amount) ∧
    (U64_SIZE ≤ amount * rate →
      calculate_tax amount rate = Except.error TaxRewardError.Overflow) ∧
    calculate_tax amount 0 = Except.ok 0 ∧
    (amount * 10000 < U64_SIZE → calculate_tax amount 10000 = Except.ok amount) := by
  have hcancel : amount * 10000 / 10000 = amount :=
    Nat.mul_div_cancel amount (by norm_num)
  refine ⟨?_, ?_, ?_, ?_⟩
  · intro h
    rw [calculate_tax_eq]
    refine ⟨by simp [h], ?_⟩
    calc amount * rate / 10000 ≤ amount * 10000 / 10000 :=
          Nat.div_le_div_right (Nat.mul_le_mul_left amount hr)
      _ = amount := hcancel
  · intro h
    rw [calculate_tax_eq]
    simp [Nat.not_lt.mpr h]
  · rw [calculate_tax_eq]
    norm_num [U64_SIZE]
  · intro h
    rw [calculate_tax_eq]
    simp [h, hcancel]

/-- Instantiation of `calculate_tax_spec`: the spec scenario
`amount_in = 1000, rate_bps = 500 → tax = 50`, with `tax ≤ amount`. -/
theorem calculate_tax_spec_witness :
    calculate_tax 1000 500 = Except.ok 50 ∧ (50 : Nat) ≤ 1000 := by
  have h := (calculate_tax_spec 1000 500 (by decide)).1 (by decide)
  exact ⟨h.1, h.2⟩

/-- Counterexample to claim C3 as stated: at `amount = 2^63`,
`rate_bps = 10000 ≤ 10000` the u64 intermediate `amount * rate_bps`
overflows, so the tax computation fails with `Overflow` instead of
returning `floor(amount * rate_bps / 10000) = amount`. -/
theorem calculate_tax_overflow_cex :
    calculate_tax 9223372036854775808 10000 = Except.error TaxRewardError.Overflow ∧
    (10000 : Nat) ≤ 10000 := by
  refine ⟨rfl, by decide⟩

/-- Claim C6 (amended): `deltaCum` returns
`floor(delta_proceeds * SCALE / total_supply)` when the product fits in
u128 and the supply is non-zero, and fails with `Overflow` on intermediate
overflow; when `total_supply = 0` it also fails with `Overflow` — the
`checked_div` failure is mapped by `ok_or` to `Overflow`, and the error
enum has no `DivideByZero` variant. -/
theorem deltaCum_spec (d ts : Nat) :
    (ts = 0 → deltaCum d ts = Except.error TaxRewardError.Overflow) ∧
    (d * SCALE < U128_SIZE → ts ≠ 0 → deltaCum d ts = Except.ok (d * SCALE / ts)) ∧
    (U128_SIZE ≤ d * SCALE → deltaCum d ts = Except.error TaxRewardError.Overflow) := by
  refine ⟨?_, ?_, ?_⟩
  · intro h
    rw [deltaCum_eq]
    simp [h]
  · intro h1 h2
    rw [deltaCum_eq]
    simp [h1, h2]
  · intro h
    rw [deltaCum_eq]
    simp [Nat.not_lt.mpr h]

/-- Instantiation of `deltaCum_spec`: 2 lamports of proceeds over a supply
of 1000 accrue `2·SCALE/1000` per token. -/
theorem deltaCum_spec_witness :
    deltaCum 2 1000 = Except.ok (2 * SCALE / 1000) :=
  (deltaCum_spec 2 1000).2.1 (by decide) (by decide)

/-- Counterexample to claim C6 as stated: at `total_supply = 0` the code
fails with `Overflow`, not with the spec's `DivideByZero` kind. -/
theorem deltaCum_zero_supply_cex :
    mapCodeErr (deltaCum 1 0) = Except.error SpecError.Overflow ∧
    SpecError.Overflow ≠ SpecError.DivideByZero := by
  refine ⟨rfl, by decide⟩

/-- Claim C8 (amended): for `cum_now ≥ cum_last` with the product fitting
in u128, `owed = 0` holds iff the truncated quotient
`(balance·(cum_now−cum_last)/SCALE) mod 2^64` is zero. The claimed forward
direction survives — `cum_now = cum_last` or `balance = 0` forces
`owed = 0` — but the converse fails, e.g. whenever
`balance·(cum_now−cum_last) < SCALE`. -/
theorem owed_zero_iff (b cn cl : Nat) (hcl : cl ≤ cn)
    (hfit : b * (cn - cl) < U128_SIZE) :
    (calculate_owed_rewards b cn cl = Except.ok 0 ↔
      b * (cn - cl) / SCALE % U64_SIZE = 0) ∧
    (cn = cl ∨ b = 0 → calculate_owed_rewards b cn cl = Except.ok 0) := by
  constructor
  · rw [calculate_owed_rewards_eq]
    simp [hcl, hfit]
  · rintro (h0 | h0) <;>
      · rw [calculate_owed_rewards_eq]
        simp [hcl, h0, U128_SIZE]

/-- Instantiation of `owed_zero_iff`: `owed(1, 1, 0) = 0`. -/
theorem owed_zero_iff_witness :
    calculate_owed_rewards 1 1 0 = Except.ok 0 :=
  (owed_zero_iff 1 1 0 (by decide) (by decide)).1.mpr (by decide)

/-- Counterexample to claim C8 as stated: at `balance = 1`, `cum_now = 1`,
`cum_last = 0` the owed amount is 0, yet neither `cum_now = cum_last` nor
`balance = 0` holds. -/
theorem owed_zero_iff_cex :
    calculate_owed_rewards 1 1 0 = Except.ok 0 ∧
    ¬((1 : Nat) = 0 ∨ (1 : Nat) = 0) := by
  refine ⟨rfl, by decide⟩

/-- Settling against an equal accumulator owes nothing. -/
theorem calculate_owed_rewards_self (b c : Nat) :
    calculate_owed_rewards b c c = Except.ok 0 := by
  rw [calculate_owed_rewards_eq]
  simp [Nat.sub_self]
  norm_num [U128_SIZE]

/-- Claim C9: settlement is idempotent. A successful `claim_rewards` sets
`last_cum` to the global accumulator, so an immediately following
`claim_rewards` against the same `GlobalState` computes `owed = 0`, pays
nothing, and leaves the reward vault untouched. -/
theorem claim_rewards_idempotent (g : GlobalState) (ui : UserInfo)
    (rv amt amt2 : Nat) (out : ClaimOutcome)
    (h : claim_rewards g ui rv amt = Except.ok out) :
    claim_rewards g out.user_info out.reward_vault_lamports amt2 =
      Except.ok ⟨0, ⟨g.cum_reward_per_token, amt2⟩, out.reward_vault_lamports⟩ := by
  have hui : out.user_info.last_cum = g.cum_reward_per_token := by
    unfold claim_rewards at h
    cases hcalc : calculate_owed_rewards ui.balance_snapshot
        g.cum_reward_per_token ui.last_cum with
    | error e =>
      rw [hcalc] at h
      exact Except.noConfusion h
    | ok owed =>
      rw [hcalc] at h
      by_cases hc : 0 < owed ∧ rv < owed
      · simp [hc] at h
      · simp [hc] at h
        rw [← h]
  unfold claim_rewards
  rw [hui, calculate_owed_rewards_self]
  simp

/-- Instantiation of `claim_rewards_idempotent`: after a first claim that
pays 15 lamports, the immediate second claim pays 0. -/
theorem claim_rewards_idempotent_witness :
    claim_rewards ⟨1000, 5 * SCALE⟩ ⟨5 * SCALE, 9⟩ 85 7 =
      Except.ok ⟨0, ⟨5 * SCALE, 7⟩, 85⟩ :=
  claim_rewards_idempotent ⟨1000, 5 * SCALE⟩ ⟨0, 3⟩ 100 9 7 ⟨15, ⟨5 * SCALE, 9⟩, 85⟩ rfl

/-- Claim C10: `close_user_info` always succeeds, transfers the account's
rent lamports to the authority, and neither runs settlement nor checks
that the pending owed amount is zero — in particular it succeeds on a
ledger entry whose pending owed amount (here 1000, the spec's own
scenario values) is positive, silently forfeiting it. -/
theorem close_user_info_forfeits :
    (∀ (ui : UserInfo) (al ul : Nat),
      close_user_info ui al ul = Except.ok (none, al + ul)) ∧
    calculate_owed_rewards 1000 (2 * SCALE) SCALE = Except.ok 1000 ∧
    close_user_info ⟨SCALE, 1000⟩ 5 2 = Except.ok (none, 7) := by
  refine ⟨fun ui al ul => rfl, rfl, rfl⟩

/-- Claim C7 (code bug): `swap_tokens_for_sol` tries no primary DEX route
and no fallback — it calls only the always-succeeding development mock
(after rejecting a zero amount with the raw `ProgramError::InvalidArgument`,
never `SwapFailed`), while the unimplemented Jupiter and Serum routes are
dead code. -/
theorem swap_adapter_no_fallback :
    swap_tokens_for_sol 1000 500 = Except.ok () ∧
    swap_tokens_for_sol 0 500 = Except.error ProgramError.InvalidArgument ∧
    (∀ ta ma : Nat, swap_tokens_for_sol ta ma = Except.ok () ∨
      swap_tokens_for_sol ta ma = Except.error ProgramError.InvalidArgument) ∧
    jupiter_swap_with_vault_authority 1000 500 = Except.error (ProgramError.Custom 404) ∧
    serum_swap_with_vault_authority 1000 500 = Except.error (ProgramError.Custom 0) := by
  refine ⟨rfl, rfl, ?_, rfl, rfl⟩
  intro ta ma
  by_cases h : ta = 0
  · right
    simp [swap_tokens_for_sol, h]
  · left
    simp [swap_tokens_for_sol, mock_swap_for_development, h]

/-- Claim C4: when the invocation reaches the swap and the measured
proceeds fall short of `min_amount_out`, `taxed_swap_and_distribute`
returns `SlippageExceeded`, so the committed state equals the pre-call
state: `GlobalState`, the tax vault, and the user's ledger entry are all
unchanged — the `cum_reward_per_token` mutation, the tax collection and
the snapshot all sit after the slippage check on the success path. -/
theorem slippage_aborts_unchanged
    (st : ProgState) (env : SwapEnv) (amount_in min_amount_out : Nat)
    (hpaused : st.config.paused = false)
    (hamt : amount_in ≠ 0)
    (hrate : st.config.tax_rate_bps ≤ 10000)
    (hmint : st.user_token_mint = st.mint_key)
    (hbal : amount_in ≤ st.user_token_amount)
    (hsupply : st.global_state.total_supply ≠ 0)
    (owed : Nat)
    (howed : calculate_owed_rewards st.user_info.balance_snapshot
        st.global_state.cum_reward_per_token st.user_info.last_cum = Except.ok owed)
    (hpay : ¬(0 < owed ∧ st.reward_vault_lamports < owed))
    (hdiff : st.reward_vault_lamports - owed ≤ env.post_swap_vault_lamports)
    (hslip : env.post_swap_vault_lamports - (st.reward_vault_lamports - owed) <
      min_amount_out) :
    taxed_swap_and_distribute st env amount_in min_amount_out =
      Except.error (Err.custom TaxRewardError.SlippageExceeded) ∧
    commit st (taxed_swap_and_distribute st env amount_in min_amount_out) = st := by
  have hmain : taxed_swap_and_distribute st env amount_in min_amount_out =
      Except.error (Err.custom TaxRewardError.SlippageExceeded) := by
    unfold taxed_swap_and_distribute
    simp [hpaused, hamt, Nat.not_lt.mpr hrate, hmint, Nat.not_lt.mpr hbal, hsupply,
      howed, hpay, swap_tokens_for_sol, mock_swap_for_development,
      Nat.not_lt.mpr hdiff, hslip]
  refine ⟨hmain, ?_⟩
  rw [hmain]
  rfl

/-- Instantiation of `slippage_aborts_unchanged`: the spec scenario
`actual_out = 400 < min_amount_out = 500` aborts with `SlippageExceeded`
and commits nothing. -/
theorem slippage_aborts_unchanged_witness :
    taxed_swap_and_distribute
        ⟨⟨500, 7, 9, false⟩, ⟨1000, 0⟩, ⟨0, 0⟩, 1000, 0, 1000, 1, 1⟩ ⟨1400⟩ 100 500 =
      Except.error (Err.custom TaxRewardError.SlippageExceeded) ∧
    commit ⟨⟨500, 7, 9, false⟩, ⟨1000, 0⟩, ⟨0, 0⟩, 1000, 0, 1000, 1, 1⟩
        (taxed_swap_and_distribute
          ⟨⟨500, 7, 9, false⟩, ⟨1000, 0⟩, ⟨0, 0⟩, 1000, 0, 1000, 1, 1⟩ ⟨1400⟩ 100 500) =
      ⟨⟨500, 7, 9, false⟩, ⟨1000, 0⟩, ⟨0, 0⟩, 1000, 0, 1000, 1, 1⟩ :=
  slippage_aborts_unchanged
    ⟨⟨500, 7, 9, false⟩, ⟨1000, 0⟩, ⟨0, 0⟩, 1000, 0, 1000, 1, 1⟩ ⟨1400⟩ 100 500
    rfl (by decide) (by decide) rfl (by decide) (by decide)
    0 rfl (by decide) (by decide) (by decide)

/-- A successful `checked_add_u128` never decreases the first addend. -/
theorem checked_add_u128_le {a b c : Nat} (h : checked_add_u128 a b = some c) :
    a ≤ c := by
  unfold checked_add_u128 at h
  split at h
  · cases h
    exact Nat.le_add_right a b
  · exact Option.noConfusion h

/-- A successful accrual/tax/snapshot tail never decreases the accumulator. -/
theorem accrue_cum_le (st : ProgState) (env : SwapEnv)
    (amount_in delta_sol : Nat) (st' : ProgState)
    (h : accrue_collect_snapshot st env amount_in delta_sol = Except.ok st') :
    st.global_state.cum_reward_per_token ≤ st'.global_state.cum_reward_per_token := by
  simp only [accrue_collect_snapshot] at h
  repeat' (split at h <;> try exact Except.noConfusion h)
  injection h with h'
  subst h'
  exact checked_add_u128_le (by assumption)

/-- A single successful taxed swap never decreases the accumulator. -/
theorem cum_monotone_step (st : ProgState) (env : SwapEnv)
    (amount_in min_amount_out : Nat) (st' : ProgState)
    (h : taxed_swap_and_distribute st env amount_in min_amount_out = Except.ok st') :
    st.global_state.cum_reward_per_token ≤ st'.global_state.cum_reward_per_token := by
  simp only [taxed_swap_and_distribute] at h
  repeat' (split at h <;> try exact Except.noConfusion h)
  exact accrue_cum_le st env amount_in _ st' h

/-- Any sequence of committed invocations never decreases the accumulator. -/
theorem cum_monotone_runAll (st : ProgState) (is : List Invocation) :
    st.global_state.cum_reward_per_token ≤
      (runAll st is).global_state.cum_reward_per_token := by
  induction is generalizing st with
  | nil => exact Nat.le_refl _
  | cons i rest ih =>
    have hstep : st.global_state.cum_reward_per_token ≤
        (commitStep st i).global_state.cum_reward_per_token := by
      unfold commitStep commit
      cases hr : taxed_swap_and_distribute st i.env i.amount_in i.min_amount_out with
      | ok s => exact cum_monotone_step st i.env i.amount_in i.min_amount_out s hr
      | error e => exact Nat.le_refl _
    calc st.global_state.cum_reward_per_token
        ≤ (commitStep st i).global_state.cum_reward_per_token := hstep
      _ ≤ (runAll (commitStep st i) rest).global_state.cum_reward_per_token :=
          ih (commitStep st i)
      _ = (runAll st (i :: rest)).global_state.cum_reward_per_token := by
          simp [runAll]

/-- Claim C5: `cum_reward_per_token` is monotonically non-decreasing — each
successful `taxed_swap_and_distribute` produces a post-state accumulator at
least the pre-state one, and hence across any sequence of committed
invocations the accumulator never decreases. -/
theorem cum_reward_monotone :
    (∀ (st : ProgState) (env : SwapEnv) (amount_in min_amount_out : Nat)
        (st' : ProgState),
      taxed_swap_and_distribute st env amount_in min_amount_out = Except.ok st' →
      st.global_state.cum_reward_per_token ≤ st'.global_state.cum_reward_per_token) ∧
    (∀ (st : ProgState) (is : List Invocation),
      st.global_state.cum_reward_per_token ≤
        (runAll st is).global_state.cum_reward_per_token) :=
  ⟨cum_monotone_step, cum_monotone_runAll⟩

/-- Instantiation of `cum_reward_monotone` on a concrete successful swap:
the accumulator grows from 0 to 4·10^17. -/
theorem cum_reward_monotone_witness :
    (0 : Nat) ≤ 400000000000000000 :=
  cum_reward_monotone.1
    ⟨⟨500, 7, 9, false⟩, ⟨1000, 0⟩, ⟨0, 0⟩, 1000, 0, 1000, 1, 1⟩ ⟨1400⟩ 100 400
    ⟨⟨500, 7, 9, false⟩, ⟨1000, 400000000000000000⟩, ⟨0, 1000⟩, 1400, 5, 995, 1, 1⟩
    rfl

end SolanaTaxReward
